import Mathlib

/-!
Shallow embedding of the divvy-contracts stash registry (src/src/lib.rs).

The contract state is a registry of stashes (`stashes : HashMap<u64, Stash>`)
together with a per-account index (`accounts : UnorderedMap<AccountId,
UnorderedSet<u64>>`).  Both maps are modelled as association lists with
unique keys; sets are modelled as duplicate-free lists.  Machine integers
are modelled as `Nat`, with `% 2 ^ 128` where u128 arithmetic can wrap.

The modules `stash.rs` and `token_vault.rs` are declared in lib.rs but their
sources are not part of src/; the `Stash`-level operations are modelled from
the spec (each such definition carries a `Modelled from the spec:` comment).
Everything else is translated directly from lib.rs.
-/

set_option autoImplicit false

namespace Divvy

/-- Account identifiers (near_sdk `AccountId`), modelled as strings. -/
abbrev AccountId := String

/-- The u128 modulus: u128 values are `Nat`s below this bound. -/
def U128MOD : Nat := 2 ^ 128

/-- Association-list lookup: first value stored under key `k`. -/
def lookupA {K V : Type} [DecidableEq K] (k : K) : List (K × V) → Option V
  | [] => none
  | (k', v') :: t => if k' = k then some v' else lookupA k t

/-- Association-list insert: replace the value under `k` if the key is
present (HashMap/UnorderedMap insert semantics), else append the pair. -/
def insertA {K V : Type} [DecidableEq K] (k : K) (v : V) : List (K × V) → List (K × V)
  | [] => [(k, v)]
  | (k', v') :: t => if k' = k then (k, v) :: t else (k', v') :: insertA k v t

/-- Association-list removal of a key (HashMap remove semantics). -/
def removeA {K V : Type} [DecidableEq K] (k : K) : List (K × V) → List (K × V)
  | [] => []
  | (k', v') :: t => if k' = k then removeA k t else (k', v') :: removeA k t

/-- Set insert (UnorderedSet insert semantics): append if absent. -/
def insertS {K : Type} [DecidableEq K] (k : K) (s : List K) : List K :=
  if k ∈ s then s else s ++ [k]

/-- Wrapping u128 subtraction: for `b a < 2^128` this is the value of the
Rust expression `b - a` on u128 with overflow checks disabled. -/
def wrappingSub (b a : Nat) : Nat :=
  (b + U128MOD - a % U128MOD) % U128MOD

/-- Error outcomes of the contract calls (spec §7 taxonomy; a Rust `panic`
or failed `expect` aborts the NEAR call and is modelled as `Except.error`). -/
inductive ContractError : Type where
  | StashNotFound : ContractError
  | VaultNotFound : ContractError
  | Overflow : ContractError
  | InsufficientBalance : ContractError
  | InsufficientDeposit (required attached : Nat) : ContractError
  deriving DecidableEq, Repr

/-- Modelled from the spec: `stash.rs` is not under src/.  A `Stash` is
`{ id, name, vaults: mapping asset_identifier → Vault, authorized_contributors:
set of account identifiers }` (spec §3); a Vault is a single asset balance, so
the vaults mapping is stored as asset identifier → u128 balance. -/
structure Stash where
  id : Nat
  name : String
  vaults : List (AccountId × Nat)
  authorized_contributors : List AccountId
  deriving DecidableEq, Repr

/-- Store balance `b` under asset `token_id` in the stash's vaults mapping
(insert-or-replace). -/
def Stash.setVault (s : Stash) (token_id : AccountId) (b : Nat) : Stash :=
  { s with vaults := insertA token_id b s.vaults }

/-- Modelled from the spec: `Stash::new(stash_id, name)` of the missing
stash.rs — a fresh stash with no vaults and no contributors (spec §4.1
`create` inserts an empty Stash). -/
def Stash.new (stash_id : Nat) (name : String) : Stash :=
  { id := stash_id, name := name, vaults := [], authorized_contributors := [] }

/-- Modelled from the spec: `Stash::add_vault` of the missing stash.rs —
"inserts a zero-balance Vault if none exists for that asset (idempotent
no-op if one already exists)" (spec §4.1). -/
def Stash.add_vault (s : Stash) (token_id : AccountId) : Stash :=
  match lookupA token_id s.vaults with
  | some _ => s
  | none => s.setVault token_id 0

/-- Modelled from the spec: `Stash::add_liquidity` of the missing stash.rs —
"creates the Vault if needed; increases its balance by `amount` using
checked addition — fails `Overflow` rather than wrapping" (spec §4.1). -/
def Stash.add_liquidity (s : Stash) (token_id : AccountId) (amount : Nat) :
    Except ContractError Stash :=
  let b := (lookupA token_id s.vaults).getD 0
  if b + amount < U128MOD then
    Except.ok (s.setVault token_id (b + amount))
  else
    Except.error ContractError.Overflow

/-- Modelled from the spec: `Stash::remove_liquidity` of the missing
stash.rs — fails `VaultNotFound` if no vault exists for the asset, then
"decreases balance by `amount`"; per spec §4.1/§9 the current code performs
the subtraction unchecked (no `InsufficientBalance` bound check), so the
u128 balance wraps. -/
def Stash.remove_liquidity (s : Stash) (token_id : AccountId) (amount : Nat) :
    Except ContractError Stash :=
  match lookupA token_id s.vaults with
  | none => Except.error ContractError.VaultNotFound
  | some b =>
      Except.ok (s.setVault token_id (wrappingSub b amount))

/-- Modelled from the spec: `Stash::authorize_contributor` of the missing
stash.rs — "inserts `account` into the authorized set (idempotent)"
(spec §4.1). -/
def Stash.authorize_contributor (s : Stash) (account_id : AccountId) : Stash :=
  { s with authorized_contributors := insertS account_id s.authorized_contributors }

/-- The contract state (lib.rs `Contract`): the stashes map and the
per-account index of stash ids. -/
structure Contract where
  stashes : List (Nat × Stash)
  accounts : List (AccountId × List Nat)
  deriving DecidableEq, Repr

/-- Store stash `s` under `stash_id` in the registry's stashes mapping
(insert-or-replace). -/
def Contract.setStash (c : Contract) (stash_id : Nat) (s : Stash) : Contract :=
  { c with stashes := insertA stash_id s c.stashes }

/-- Contract state produced by `Contract::new` (lib.rs line 26). -/
def Contract.new : Contract :=
  { stashes := [], accounts := [] }

/-- The id `create_stash` allocates next: `self.stashes.len() as u64`
(lib.rs line 38). -/
def next_stash_id (c : Contract) : Nat :=
  c.stashes.length

/-- Registry mutation of `create_stash` (lib.rs lines 36-47), before the
storage accounting step: allocate `stashes.len()` as the id, insert the new
stash, and add the id to the caller's index set. -/
def create_stash (c : Contract) (caller : AccountId) (name : String) :
    Except ContractError Contract :=
  let stash_id := next_stash_id c
  let stashes' := insertA stash_id (Stash.new stash_id name) c.stashes
  let set := (lookupA caller c.accounts).getD []
  let set' := insertS stash_id set
  Except.ok { stashes := stashes', accounts := insertA caller set' c.accounts }

/-- Registry mutation of `add_token_to_stash` (lib.rs lines 50-55):
`expect("ERR_STASH_NOT_FOUND")` then `stash.add_vault(token_id)`. -/
def add_token_to_stash (c : Contract) (stash_id : Nat) (token_id : AccountId) :
    Except ContractError Contract :=
  match lookupA stash_id c.stashes with
  | none => Except.error ContractError.StashNotFound
  | some s => Except.ok (c.setStash stash_id (s.add_vault token_id))

/-- `deposit_swap` (lib.rs lines 58-61): an unimplemented placeholder with
an empty body — it touches nothing and cannot fail. -/
def deposit_swap (c : Contract) (_stash_id : Nat) (_token_in _token_out : AccountId)
    (_amount_in _min_amount_out : Nat) : Contract :=
  c

/-- Registry mutation of `add_liquidity_to_stash` (lib.rs lines 64-69):
`expect("ERR_STASH_NOT_FOUND")` then `stash.add_liquidity(token_id, amount)`. -/
def add_liquidity_to_stash (c : Contract) (stash_id : Nat) (token_id : AccountId)
    (amount : Nat) : Except ContractError Contract :=
  match lookupA stash_id c.stashes with
  | none => Except.error ContractError.StashNotFound
  | some s =>
      (s.add_liquidity token_id amount).map (fun s' => c.setStash stash_id s')

/-- Registry mutation of `remove_liquidity_from_stash` (lib.rs lines 72-77):
`expect("ERR_STASH_NOT_FOUND")` then `stash.remove_liquidity(token_id, amount)`. -/
def remove_liquidity_from_stash (c : Contract) (stash_id : Nat) (token_id : AccountId)
    (amount : Nat) : Except ContractError Contract :=
  match lookupA stash_id c.stashes with
  | none => Except.error ContractError.StashNotFound
  | some s =>
      (s.remove_liquidity token_id amount).map (fun s' => c.setStash stash_id s')

/-- Registry mutation of `authorize_contributor` (lib.rs lines 80-85):
`expect("ERR_STASH_NOT_FOUND")` then `stash.authorize_contributor(account_id)`. -/
def authorize_contributor (c : Contract) (stash_id : Nat) (account_id : AccountId) :
    Except ContractError Contract :=
  match lookupA stash_id c.stashes with
  | none => Except.error ContractError.StashNotFound
  | some s => Except.ok (c.setStash stash_id (s.authorize_contributor account_id))

/-- `get_stashes_for_account` (lib.rs lines 87-89): the account's index set
as a vector, or the empty vector when the account has none. -/
def get_stashes_for_account (c : Contract) (account_id : AccountId) : List Nat :=
  (lookupA account_id c.accounts).getD []

/-- Registry mutation of `remove_stash` (lib.rs lines 94-98): delete the
entry from `stashes` (`HashMap::remove`, a no-op on an absent key); the
`accounts` index is not touched. -/
def remove_stash (c : Contract) (stash_id : Nat) : Except ContractError Contract :=
  Except.ok { c with stashes := removeA stash_id c.stashes }

/-- The balance of the vault for `token_id` inside stash `stash_id`, when
both exist. -/
def stashVaultBalance (c : Contract) (stash_id : Nat) (token_id : AccountId) : Option Nat :=
  (lookupA stash_id c.stashes).bind (fun s => lookupA token_id s.vaults)

/-- The ambient NEAR call context consumed by the storage accountant:
the per-byte storage price, the attached deposit (both in yoctoNEAR) and
the calling account. -/
structure Env where
  storage_byte_cost : Nat
  attached_deposit : Nat
  predecessor : AccountId
  deriving DecidableEq, Repr

/-- `internal_check_storage` (lib.rs lines 105-123): the storage cost is the
saturating storage delta times the per-byte price (`checked_sub(...).
unwrap_or_default()` is `Nat` subtraction); `attached.checked_sub(cost).
expect(...)` aborts the call with `ERR_STORAGE_DEPOSIT` when the attached
deposit is below the cost, modelled as `InsufficientDeposit`; a nonzero
remainder is scheduled as a transfer back to the caller. -/
def internal_check_storage (env : Env) (prev_storage cur_storage : Nat) :
    Except ContractError (Nat × Option (AccountId × Nat)) :=
  let storage_cost := (cur_storage - prev_storage) * env.storage_byte_cost
  if env.attached_deposit < storage_cost then
    Except.error (ContractError.InsufficientDeposit storage_cost env.attached_deposit)
  else
    let refund := env.attached_deposit - storage_cost
    Except.ok (storage_cost, if refund = 0 then none else some (env.predecessor, refund))

/-- The payable entry points of the contract, each carrying its arguments. -/
inductive PayableOp : Type where
  | createStash (name : String) : PayableOp
  | addToken (stash_id : Nat) (token_id : AccountId) : PayableOp
  | addLiquidity (stash_id : Nat) (token_id : AccountId) (amount : Nat) : PayableOp
  | removeLiquidity (stash_id : Nat) (token_id : AccountId) (amount : Nat) : PayableOp
  | authorizeContributor (stash_id : Nat) (account_id : AccountId) : PayableOp
  | removeStash (stash_id : Nat) : PayableOp
  deriving DecidableEq, Repr

/-- The registry mutation each payable entry point performs between its
`env::storage_usage()` baseline and its `internal_check_storage` call. -/
def PayableOp.mutate (env : Env) : PayableOp → Contract → Except ContractError Contract
  | PayableOp.createStash name => fun c => create_stash c env.predecessor name
  | PayableOp.addToken i t => fun c => add_token_to_stash c i t
  | PayableOp.addLiquidity i t a => fun c => add_liquidity_to_stash c i t a
  | PayableOp.removeLiquidity i t a => fun c => remove_liquidity_from_stash c i t a
  | PayableOp.authorizeContributor i a => fun c => authorize_contributor c i a
  | PayableOp.removeStash i => fun c => remove_stash c i

/-- One full payable call: record the storage baseline (`storageOf` is the
platform's `env::storage_usage()` measure of the serialized state), run the
mutation, then reconcile via `internal_check_storage`.  Any error aborts the
NEAR call, so no partial state survives. -/
def payableCall (storageOf : Contract → Nat) (env : Env) (op : PayableOp)
    (c : Contract) : Except ContractError (Contract × Option (AccountId × Nat)) :=
  let prev := storageOf c
  match op.mutate env c with
  | Except.error e => Except.error e
  | Except.ok c2 =>
      match internal_check_storage env prev (storageOf c2) with
      | Except.error e => Except.error e
      | Except.ok (_, refund) => Except.ok (c2, refund)

/-- The state after a NEAR call: a panic (modelled as `Except.error`) rolls
every write of the call back, so the pre-call state survives. -/
def resultState (c : Contract) :
    Except ContractError (Contract × Option (AccountId × Nat)) → Contract
  | Except.error _ => c
  | Except.ok (c2, _) => c2

/-- The refund transfer a call schedules: none when it aborts. -/
def resultRefund :
    Except ContractError (Contract × Option (AccountId × Nat)) → Option (AccountId × Nat)
  | Except.error _ => none
  | Except.ok (_, r) => r

/-! Association-list lemmas. -/

theorem lookupA_insertA_self {K V : Type} [DecidableEq K] (k : K) (v : V)
    (m : List (K × V)) : lookupA k (insertA k v m) = some v := by
  induction m with
  | nil => simp [lookupA, insertA]
  | cons p t ih =>
      obtain ⟨k', v'⟩ := p
      by_cases h : k' = k
      · simp [lookupA, insertA, h]
      · simp [lookupA, insertA, h, ih]

theorem insertA_of_lookupA_eq {K V : Type} [DecidableEq K] {k : K} {v : V}
    {m : List (K × V)} (h : lookupA k m = some v) : insertA k v m = m := by
  induction m with
  | nil => simp [lookupA] at h
  | cons p t ih =>
      obtain ⟨k', v'⟩ := p
      by_cases hk : k' = k
      · simp [lookupA, hk] at h
        simp [insertA, hk, h]
      · simp [lookupA, hk] at h
        simp [insertA, hk, ih h]

theorem lookupA_removeA_self {K V : Type} [DecidableEq K] (k : K)
    (m : List (K × V)) : lookupA k (removeA k m) = none := by
  induction m with
  | nil => simp [lookupA, removeA]
  | cons p t ih =>
      obtain ⟨k', v'⟩ := p
      by_cases h : k' = k
      · simp [removeA, h, ih]
      · simp [removeA, lookupA, h, ih]

theorem removeA_of_lookupA_none {K V : Type} [DecidableEq K] {k : K}
    {m : List (K × V)} (h : lookupA k m = none) : removeA k m = m := by
  induction m with
  | nil => simp [removeA]
  | cons p t ih =>
      obtain ⟨k', v'⟩ := p
      by_cases hk : k' = k
      · simp [lookupA, hk] at h
      · simp [lookupA, hk] at h
        simp [removeA, hk, ih h]

/-! Demonstration states and environments used by the concrete witnesses. -/

/-- A simple storage measure: ten bytes per stash entry. -/
def demoStorage : Contract → Nat := fun c => 10 * c.stashes.length

/-- A call context whose attached deposit (5) is below the 10-byte cost of
one stash under `demoStorage`. -/
def demoEnvLow : Env :=
  { storage_byte_cost := 1, attached_deposit := 5, predecessor := "alice" }

/-- A call context whose attached deposit (25) exceeds the 10-byte cost of
one stash under `demoStorage`. -/
def demoEnvHigh : Env :=
  { storage_byte_cost := 1, attached_deposit := 25, predecessor := "alice" }

/-- The state after `create_stash` named "x" by "alice" on the fresh state. -/
def demoC1 : Contract :=
  { stashes := [(0, Stash.new 0 "x")], accounts := [("alice", [0])] }

/-! Claim theorems. -/

/-- C1: for every payable operation whose registry mutation succeeds, if the
attached payment is strictly below the required storage cost (saturating
storage delta times the per-byte price), the whole call aborts with
`InsufficientDeposit{required, attached}`, the registry state is exactly the
pre-call state, and no refund transfer is scheduled. -/
theorem payableCall_insufficient_deposit (storageOf : Contract → Nat) (env : Env)
    (op : PayableOp) (c c2 : Contract)
    (hok : op.mutate env c = Except.ok c2)
    (hlt : env.attached_deposit < (storageOf c2 - storageOf c) * env.storage_byte_cost) :
    payableCall storageOf env op c =
      Except.error (ContractError.InsufficientDeposit
        ((storageOf c2 - storageOf c) * env.storage_byte_cost) env.attached_deposit) ∧
    resultState c (payableCall storageOf env op c) = c ∧
    resultRefund (payableCall storageOf env op c) = none := by
  have h : payableCall storageOf env op c =
      Except.error (ContractError.InsufficientDeposit
        ((storageOf c2 - storageOf c) * env.storage_byte_cost) env.attached_deposit) := by
    simp only [payableCall, hok, internal_check_storage]
    rw [if_pos hlt]
  exact ⟨h, by rw [h]; rfl, by rw [h]; rfl⟩

/-- Witness for C1: creating a stash on the fresh state with 5 attached
against a required cost of 10 aborts with `InsufficientDeposit 10 5` and
leaves the fresh state intact. -/
theorem payableCall_insufficient_deposit_witness :
    payableCall demoStorage demoEnvLow (PayableOp.createStash "x") Contract.new =
      Except.error (ContractError.InsufficientDeposit 10 5) ∧
    resultState Contract.new
      (payableCall demoStorage demoEnvLow (PayableOp.createStash "x") Contract.new) =
      Contract.new ∧
    resultRefund
      (payableCall demoStorage demoEnvLow (PayableOp.createStash "x") Contract.new) =
      none :=
  payableCall_insufficient_deposit demoStorage demoEnvLow
    (PayableOp.createStash "x") Contract.new demoC1 rfl (by decide)

/-- C2: for every payable operation whose registry mutation succeeds and
whose required storage cost is covered, the call succeeds, the mutated state
persists, a strict overpayment schedules a refund of exactly
`attached − required` to the caller, and an exact payment schedules none. -/
theorem payableCall_refund (storageOf : Contract → Nat) (env : Env)
    (op : PayableOp) (c c2 : Contract) (cost : Nat)
    (hcost : cost = (storageOf c2 - storageOf c) * env.storage_byte_cost)
    (hok : op.mutate env c = Except.ok c2)
    (hge : cost ≤ env.attached_deposit) :
    resultState c (payableCall storageOf env op c) = c2 ∧
    (cost < env.attached_deposit →
      resultRefund (payableCall storageOf env op c) =
        some (env.predecessor, env.attached_deposit - cost)) ∧
    (env.attached_deposit = cost →
      resultRefund (payableCall storageOf env op c) = none) := by
  subst hcost
  have h : payableCall storageOf env op c =
      Except.ok (c2,
        if env.attached_deposit - (storageOf c2 - storageOf c) * env.storage_byte_cost = 0
        then none
        else some (env.predecessor,
          env.attached_deposit - (storageOf c2 - storageOf c) * env.storage_byte_cost)) := by
    simp only [payableCall, hok, internal_check_storage]
    rw [if_neg (not_lt.mpr hge)]
  refine ⟨by rw [h]; rfl, ?_, ?_⟩
  · intro hltr
    rw [h]
    have hne : env.attached_deposit - (storageOf c2 - storageOf c) * env.storage_byte_cost ≠ 0 := by
      omega
    simp only [resultRefund, if_neg hne]
  · intro heq
    rw [h]
    have hz : env.attached_deposit - (storageOf c2 - storageOf c) * env.storage_byte_cost = 0 := by
      omega
    simp only [resultRefund, if_pos hz]

/-- Witness for C2: creating a stash on the fresh state with 25 attached
against a required cost of 10 persists the new stash and refunds exactly 15
to the caller. -/
theorem payableCall_refund_witness :
    resultState Contract.new
      (payableCall demoStorage demoEnvHigh (PayableOp.createStash "x") Contract.new) =
      demoC1 ∧
    resultRefund
      (payableCall demoStorage demoEnvHigh (PayableOp.createStash "x") Contract.new) =
      some ("alice", 15) := by
  have h := payableCall_refund demoStorage demoEnvHigh (PayableOp.createStash "x")
    Contract.new demoC1 10 (by decide) rfl (by decide)
  exact ⟨h.1, h.2.1 (by decide)⟩

/-- The state after removing stash 0 from `demoC1`: the stash entry is gone
but the index entry of "alice" still holds 0. -/
def demoC2 : Contract :=
  { stashes := [], accounts := [("alice", [0])] }

/-- The state after a second `create_stash` (named "y") on `demoC2`: the id
0 is handed out again. -/
def demoC3 : Contract :=
  { stashes := [(0, Stash.new 0 "y")], accounts := [("alice", [0])] }

/-- A stash whose "usdc" vault has balance 60. -/
def demoStashBal : Stash :=
  { id := 0, name := "x", vaults := [("usdc", 60)], authorized_contributors := [] }

/-- The stash `demoStashBal` after the unchecked withdrawal of 1000 from
its balance-60 vault: the u128 balance has wrapped to `2^128 - 940`. -/
def demoStashWrapped : Stash :=
  { id := 0, name := "x", vaults := [("usdc", U128MOD - 940)],
    authorized_contributors := [] }

/-- A state holding one stash whose "usdc" vault has balance 60. -/
def demoCBal : Contract :=
  { stashes := [(0, demoStashBal)], accounts := [("alice", [0])] }

/-- The state `demoCBal` after the unchecked withdrawal of 1000 from the
balance-60 vault. -/
def demoCBalAfter : Contract :=
  { stashes := [(0, demoStashWrapped)], accounts := [("alice", [0])] }

/-- C3 (code bug, evaluated at the failing input): withdrawing 1000 from a
vault holding 60 does not fail `InsufficientBalance`; the subtraction is
unchecked, so the call succeeds and the balance wraps to `2^128 - 940` —
the balance is decremented below zero instead of being left unchanged. -/
theorem remove_liquidity_wraps_below_zero :
    remove_liquidity_from_stash demoCBal 0 "usdc" 1000 = Except.ok demoCBalAfter ∧
    stashVaultBalance demoCBalAfter 0 "usdc" = some (U128MOD - 940) ∧
    remove_liquidity_from_stash demoCBal 0 "usdc" 1000 ≠
      Except.error ContractError.InsufficientBalance := by
  have h1 : remove_liquidity_from_stash demoCBal 0 "usdc" 1000 =
      Except.ok demoCBalAfter := by rfl
  refine ⟨h1, rfl, ?_⟩
  rw [h1]
  intro h
  exact Except.noConfusion h

/-- C4 (code bug, evaluated at the failing input): after creating stash 0
and removing it, the stash entry is gone from `stashes` but
`get_stashes_for_account` for the former owner still returns `[0]` — the
account index dangles. -/
theorem remove_stash_leaves_dangling_index :
    create_stash Contract.new "alice" "x" = Except.ok demoC1 ∧
    remove_stash demoC1 0 = Except.ok demoC2 ∧
    lookupA 0 demoC2.stashes = none ∧
    get_stashes_for_account demoC2 "alice" = [0] :=
  ⟨rfl, rfl, rfl, rfl⟩

/-- C5 (code bug, evaluated at the failing input): ids are allocated as
`stashes.len()`, so after creating stash 0 (named "x") and removing it, the
next allocation hands out id 0 again to a different stash (named "y") — ids
are reused, not monotonically increasing. -/
theorem stash_id_reused_after_removal :
    create_stash Contract.new "alice" "x" = Except.ok demoC1 ∧
    (lookupA 0 demoC1.stashes).map Stash.name = some "x" ∧
    remove_stash demoC1 0 = Except.ok demoC2 ∧
    next_stash_id demoC2 = next_stash_id Contract.new ∧
    create_stash demoC2 "alice" "y" = Except.ok demoC3 ∧
    (lookupA 0 demoC3.stashes).map Stash.name = some "y" :=
  ⟨rfl, rfl, rfl, rfl, rfl, rfl⟩

/-- Counterexample to C6: on the fresh registry the id 0 is absent, yet
`remove_stash 0` does not fail with `StashNotFound` — `HashMap::remove` of
an absent key is a no-op and the call succeeds. -/
theorem remove_stash_absent_id_succeeds :
    lookupA 0 Contract.new.stashes = none ∧
    remove_stash Contract.new 0 = Except.ok Contract.new :=
  ⟨rfl, rfl⟩

/-- C6 as amended: `remove_stash` never fails; with an absent id it is an
exact no-op (no `StashNotFound`), and in every case it succeeds with the
stash entry deleted from the stashes mapping. -/
theorem remove_stash_total_and_deletes (c : Contract) (stash_id : Nat) :
    (lookupA stash_id c.stashes = none → remove_stash c stash_id = Except.ok c) ∧
    remove_stash c stash_id =
      Except.ok { c with stashes := removeA stash_id c.stashes } ∧
    lookupA stash_id (removeA stash_id c.stashes) = none := by
  refine ⟨?_, rfl, lookupA_removeA_self _ _⟩
  intro h
  simp [remove_stash, removeA_of_lookupA_none h]

/-- Witness for the amended C6: removing the live stash 0 from `demoC1`
succeeds and deletes the entry. -/
theorem remove_stash_total_and_deletes_witness :
    remove_stash demoC1 0 = Except.ok demoC2 ∧
    lookupA 0 demoC2.stashes = none := by
  have h := remove_stash_total_and_deletes demoC1 0
  exact ⟨h.2.1, h.2.2⟩

/-! Lemmas about the stash-level vault operations. -/

theorem lookupA_setVault_self (s : Stash) (t : AccountId) (b : Nat) :
    lookupA t (s.setVault t b).vaults = some b :=
  lookupA_insertA_self t b s.vaults

theorem lookupA_setStash_self (c : Contract) (i : Nat) (s : Stash) :
    lookupA i (c.setStash i s).stashes = some s :=
  lookupA_insertA_self i s c.stashes

theorem setStash_of_lookupA_eq {c : Contract} {i : Nat} {s : Stash}
    (h : lookupA i c.stashes = some s) : c.setStash i s = c := by
  unfold Contract.setStash
  rw [insertA_of_lookupA_eq h]

theorem lookupA_add_vault_self (s : Stash) (t : AccountId) :
    ∃ b, lookupA t (s.add_vault t).vaults = some b := by
  unfold Stash.add_vault
  cases h : lookupA t s.vaults with
  | none => exact ⟨0, lookupA_setVault_self s t 0⟩
  | some b => exact ⟨b, h⟩

theorem add_vault_of_lookupA_some {s : Stash} {t : AccountId} {b : Nat}
    (h : lookupA t s.vaults = some b) : s.add_vault t = s := by
  unfold Stash.add_vault
  rw [h]

theorem wrappingSub_add_cancel (b a : Nat) (h : b + a < U128MOD) :
    wrappingSub (b + a) a = b := by
  unfold wrappingSub
  have ha : a % U128MOD = a := Nat.mod_eq_of_lt (lt_of_le_of_lt (Nat.le_add_left a b) h)
  rw [ha]
  have hb : b < U128MOD := lt_of_le_of_lt (Nat.le_add_right b a) h
  have hrw : b + a + U128MOD - a = b + U128MOD := by omega
  rw [hrw, Nat.add_mod_right, Nat.mod_eq_of_lt hb]

/-- The stash of `demoC1` after `add_token_to_stash` with "usdc": a
zero-balance vault. -/
def demoStashTok : Stash :=
  { id := 0, name := "x", vaults := [("usdc", 0)], authorized_contributors := [] }

/-- The state `demoC1` with a zero-balance "usdc" vault in stash 0. -/
def demoC1Tok : Contract :=
  { stashes := [(0, demoStashTok)], accounts := [("alice", [0])] }

/-- The stash of `demoC1` after adding 7 units of "usdc" liquidity. -/
def demoStashLiq : Stash :=
  { id := 0, name := "x", vaults := [("usdc", 7)], authorized_contributors := [] }

/-- The state `demoC1` with a balance-7 "usdc" vault in stash 0. -/
def demoC1Liq : Contract :=
  { stashes := [(0, demoStashLiq)], accounts := [("alice", [0])] }

/-- C7: `add_liquidity_to_stash` fails `StashNotFound` on an absent stash
id; on a live stash it stores the vault balance `b + amount` (creating the
vault when absent, so `b` is the old balance or 0) when the checked u128
addition fits, and fails `Overflow` when it does not — in which case the
whole payable call aborts and the pre-call state survives. -/
theorem add_liquidity_to_stash_checked (c : Contract) (stash_id : Nat)
    (token_id : AccountId) (amount : Nat) :
    (lookupA stash_id c.stashes = none →
      add_liquidity_to_stash c stash_id token_id amount =
        Except.error ContractError.StashNotFound) ∧
    (∀ s, lookupA stash_id c.stashes = some s →
      ((lookupA token_id s.vaults).getD 0 + amount < U128MOD →
        add_liquidity_to_stash c stash_id token_id amount =
          Except.ok (c.setStash stash_id
            (s.setVault token_id ((lookupA token_id s.vaults).getD 0 + amount)))) ∧
      (U128MOD ≤ (lookupA token_id s.vaults).getD 0 + amount →
        add_liquidity_to_stash c stash_id token_id amount =
          Except.error ContractError.Overflow ∧
        ∀ (storageOf : Contract → Nat) (env : Env),
          resultState c
            (payableCall storageOf env
              (PayableOp.addLiquidity stash_id token_id amount) c) = c)) := by
  constructor
  · intro h
    simp [add_liquidity_to_stash, h]
  · intro s hs
    constructor
    · intro hlt
      simp only [add_liquidity_to_stash, hs, Stash.add_liquidity]
      rw [if_pos hlt]
      rfl
    · intro hge
      have herr : add_liquidity_to_stash c stash_id token_id amount =
          Except.error ContractError.Overflow := by
        simp only [add_liquidity_to_stash, hs, Stash.add_liquidity]
        rw [if_neg (not_lt.mpr hge)]
        rfl
      refine ⟨herr, ?_⟩
      intro storageOf env
      simp [payableCall, PayableOp.mutate, herr, resultState]

/-- Witness for C7: adding 7 units of "usdc" to the vault-less stash 0 of
`demoC1` creates the vault and stores balance 7. -/
theorem add_liquidity_to_stash_checked_witness :
    add_liquidity_to_stash demoC1 0 "usdc" 7 = Except.ok demoC1Liq :=
  ((add_liquidity_to_stash_checked demoC1 0 "usdc" 7).2
    (Stash.new 0 "x") rfl).1 (by decide)

/-- C8: `add_token_to_stash` fails `StashNotFound` on an absent stash id;
on a live stash it inserts a zero-balance vault when none exists for the
asset and returns the state unchanged when one does, so a second call with
the same arguments is a no-op. -/
theorem add_token_to_stash_idempotent (c : Contract) (stash_id : Nat)
    (token_id : AccountId) :
    (lookupA stash_id c.stashes = none →
      add_token_to_stash c stash_id token_id =
        Except.error ContractError.StashNotFound) ∧
    (∀ s, lookupA stash_id c.stashes = some s →
      (lookupA token_id s.vaults = none →
        add_token_to_stash c stash_id token_id =
          Except.ok (c.setStash stash_id (s.setVault token_id 0))) ∧
      (∀ b, lookupA token_id s.vaults = some b →
        add_token_to_stash c stash_id token_id = Except.ok c)) ∧
    (∀ c', add_token_to_stash c stash_id token_id = Except.ok c' →
      add_token_to_stash c' stash_id token_id = Except.ok c') := by
  refine ⟨?_, ?_, ?_⟩
  · intro h
    simp [add_token_to_stash, h]
  · intro s hs
    constructor
    · intro hv
      simp only [add_token_to_stash, hs, Stash.add_vault, hv]
    · intro b hb
      simp only [add_token_to_stash, hs, add_vault_of_lookupA_some hb,
        setStash_of_lookupA_eq hs]
  · intro c' h
    cases hs : lookupA stash_id c.stashes with
    | none => simp [add_token_to_stash, hs] at h
    | some s =>
        simp only [add_token_to_stash, hs, Except.ok.injEq] at h
        obtain ⟨b, hb⟩ := lookupA_add_vault_self s token_id
        have hl : lookupA stash_id c'.stashes = some (s.add_vault token_id) := by
          rw [← h]
          exact lookupA_setStash_self c stash_id (s.add_vault token_id)
        simp only [add_token_to_stash, hl, add_vault_of_lookupA_some hb,
          setStash_of_lookupA_eq hl]

/-- Witness for C8: registering "usdc" on the vault-less stash 0 of
`demoC1` creates a zero-balance vault, and the call is idempotent. -/
theorem add_token_to_stash_idempotent_witness :
    add_token_to_stash demoC1 0 "usdc" = Except.ok demoC1Tok ∧
    add_token_to_stash demoC1Tok 0 "usdc" = Except.ok demoC1Tok := by
  have h := add_token_to_stash_idempotent demoC1 0 "usdc"
  have h1 : add_token_to_stash demoC1 0 "usdc" = Except.ok demoC1Tok :=
    (h.2.1 (Stash.new 0 "x") rfl).1 rfl
  exact ⟨h1, h.2.2 demoC1Tok h1⟩

/-- C9: whenever `add_liquidity_to_stash` with some amount and then
`remove_liquidity_from_stash` with the same amount on the same stash and
asset both succeed, the final vault balance equals the balance before the
add (0 when the vault did not yet exist). -/
theorem add_then_remove_liquidity_round_trip (c c1 c2 : Contract)
    (stash_id : Nat) (token_id : AccountId) (amount : Nat)
    (h1 : add_liquidity_to_stash c stash_id token_id amount = Except.ok c1)
    (h2 : remove_liquidity_from_stash c1 stash_id token_id amount = Except.ok c2) :
    stashVaultBalance c2 stash_id token_id =
      some ((stashVaultBalance c stash_id token_id).getD 0) := by
  cases hs : lookupA stash_id c.stashes with
  | none => simp [add_liquidity_to_stash, hs] at h1
  | some s =>
      simp only [add_liquidity_to_stash, hs, Stash.add_liquidity] at h1
      by_cases hlt : (lookupA token_id s.vaults).getD 0 + amount < U128MOD
      · rw [if_pos hlt] at h1
        simp only [Except.map, Except.ok.injEq] at h1
        subst h1
        simp only [remove_liquidity_from_stash, lookupA_setStash_self,
          Stash.remove_liquidity, lookupA_setVault_self, Except.map,
          Except.ok.injEq] at h2
        subst h2
        simp only [stashVaultBalance, hs, lookupA_setStash_self,
          lookupA_setVault_self, Option.some_bind]
        rw [wrappingSub_add_cancel _ _ hlt]
      · rw [if_neg hlt] at h1
        simp [Except.map] at h1

/-- Witness for C9: adding 7 units of "usdc" to stash 0 of `demoC1` and
then removing 7 units brings the vault balance back to its pre-add value. -/
theorem add_then_remove_liquidity_round_trip_witness :
    stashVaultBalance demoC1Tok 0 "usdc" =
      some ((stashVaultBalance demoC1 0 "usdc").getD 0) :=
  add_then_remove_liquidity_round_trip demoC1 demoC1Liq demoC1Tok 0 "usdc" 7 rfl rfl

/-- C10: `deposit_swap` is an unimplemented placeholder: on every state and
every argument tuple it succeeds and returns the registry state unchanged. -/
theorem deposit_swap_frame (c : Contract) (stash_id : Nat)
    (token_in token_out : AccountId) (amount_in min_amount_out : Nat) :
    deposit_swap c stash_id token_in token_out amount_in min_amount_out = c :=
  rfl

end Divvy
